import Mathlib

/-!
Verification of the SRF2025 conference PDF contributions extractor
(srf2025_pdf_extractor.py).  The development shallowly embeds the page
record parser (parse_contribution_page), the session classifier
(get_session_name) and the per-page loop of extract_contributions.

Each regular-expression search of the source is embedded as a dedicated
matcher over character lists, reproducing the leftmost-match and
greedy/lazy quantifier behaviour of the Python re module for that one
pattern.  Strings are handled as their underlying character lists.
-/

set_option maxRecDepth 20000

/-- Characters matched by the regex class d (ASCII digits). -/
def isDigitC (c : Char) : Bool := decide ('0' ≤ c) && decide (c ≤ '9')

/-- Characters matched by the regex class of uppercase letters A-Z. -/
def isUpperC (c : Char) : Bool := decide ('A' ≤ c) && decide (c ≤ 'Z')

/-- Characters matched by the regex word class (letters, digits, underscore). -/
def isWordC (c : Char) : Bool := c.isAlpha || isDigitC c || c = '_'

/-- Characters matched by the regex whitespace class and stripped by the
Python strip method: space, tab, newline, carriage return, vertical tab,
form feed. -/
def isSpaceC (c : Char) : Bool :=
  c = ' ' || c = '\t' || c = '\n' || c = '\r' || c = '\x0b' || c = '\x0c'

/-- ASCII lowercasing of one character, as the Python lower method acts on
the ASCII texts handled by the extractor. -/
def asciiLowerChar (c : Char) : Char :=
  if 'A' ≤ c ∧ c ≤ 'Z' then Char.ofNat (c.toNat + 32) else c

/-- ASCII lowercasing of a character list. -/
def asciiLower (l : List Char) : List Char := l.map asciiLowerChar

/-- Whether the first list is a prefix of the second. -/
def isPre : List Char → List Char → Bool
  | [], _ => true
  | _ :: _, [] => false
  | a :: as, b :: bs => a = b && isPre as bs

/-- Whether the needle occurs as a contiguous substring of the haystack,
as the Python in operator on strings. -/
def containsSub (needle : List Char) : List Char → Bool
  | [] => needle.isEmpty
  | c :: cs => isPre needle (c :: cs) || containsSub needle cs

/-- Leftmost-match search: try the matcher at every position of the text,
left to right, and return the first successful result.  This is the
behaviour of re.search for the patterns embedded below. -/
def searchFirst (f : List Char → Option (List Char)) : List Char → Option (List Char)
  | [] => f []
  | c :: cs =>
    match f (c :: cs) with
    | some r => some r
    | none => searchFirst f cs

/-- Remove leading whitespace, as the Python lstrip method. -/
def lstrip (l : List Char) : List Char := l.dropWhile isSpaceC

/-- Remove trailing whitespace, as the Python rstrip method. -/
def rstrip : List Char → List Char
  | [] => []
  | c :: cs =>
    match rstrip cs with
    | [] => if isSpaceC c then [] else [c]
    | r :: rs => c :: r :: rs

/-- Remove leading and trailing whitespace, as the Python strip method. -/
def pyStrip (l : List Char) : List Char := lstrip (rstrip l)

/-- Split a character list at newline characters, as the Python split
method with separator newline. -/
def splitNL : List Char → List (List Char)
  | [] => [[]]
  | c :: cs =>
    if c = '\n' then [] :: splitNL cs
    else
      match splitNL cs with
      | [] => [[c]]
      | l :: ls => (c :: l) :: ls

/-- The line list the parser scans: the page text split at newlines, each
line stripped, empty lines removed (source lines 128-129). -/
def linesOf (t : List Char) : List (List Char) :=
  ((splitNL t).map pyStrip).filter (fun l => !l.isEmpty)

/-- Join character lists with single spaces, as the Python join method
with a one-space separator (source line 190). -/
def joinSpace : List (List Char) → List Char
  | [] => []
  | [l] => l
  | l :: ls => l ++ ' ' :: joinSpace ls

/-- Match a literal at the head of the text, returning the rest. -/
def matchLit (lit l : List Char) : Option (List Char) :=
  if isPre lit l then some (l.drop lit.length) else none

/-- Match a nonempty maximal run of characters satisfying p at the head of
the text, returning the rest.  Embeds a greedy one-or-more quantifier whose
class is disjoint from what follows, so no backtracking is possible. -/
def matchRun (p : Char → Bool) (l : List Char) : Option (List Char) :=
  let r := l.takeWhile p
  if r.isEmpty then none else some (l.drop r.length)

/-- Match exactly four characters satisfying p, returning the rest. -/
def matchFour (p : Char → Bool) (l : List Char) : Option (List Char) :=
  match l with
  | a :: b :: c :: d :: rest =>
    if p a && p b && p c && p d then some rest else none
  | _ => none

/-- The word-plus-day component of the date patterns: a maximal word run of
length at least four ending in day.  The greedy word quantifier followed by
the day literal and a comma forces exactly this reading. -/
def matchWday (l : List Char) : Option (List Char) :=
  let w := l.takeWhile isWordC
  if 4 ≤ w.length ∧ w.drop (w.length - 3) = String.data "day" then some (l.drop w.length)
  else none

/-- The shared prefix of the two date patterns of the source, weekday
comma month day comma four-digit year (source lines 153 and 169). -/
def matchDatePre (l : List Char) : Option (List Char) :=
  matchWday l >>= matchLit (String.data ", ") >>= matchRun isWordC >>=
    matchLit (String.data " ") >>= matchRun isDigitC >>=
    matchLit (String.data ", ") >>= matchFour isDigitC

/-- Whether the weekday-date pattern of source line 169 matches anywhere in
the line. -/
def hasWeekday : List Char → Bool
  | [] => false
  | c :: cs => (matchDatePre (c :: cs)).isSome || hasWeekday cs

/-- The meridiem component, one of A or P followed by M. -/
def matchAPM (l : List Char) : Option (List Char) :=
  match l with
  | a :: m :: rest => if (a = 'A' ∨ a = 'P') ∧ m = 'M' then some rest else none
  | _ => none

/-- The mandatory part of the date-time pattern of source line 153, up to
and including the meridiem. -/
def matchDatetimeTail (l : List Char) : Option (List Char) :=
  matchDatePre l >>= matchLit (String.data " ") >>= matchRun isDigitC >>=
    matchLit (String.data ":") >>= matchRun isDigitC >>=
    (fun r => some (r.dropWhile isSpaceC)) >>= matchAPM

/-- The lazy tail of the date-time pattern: consume as few characters as
possible, never a newline, until an opening parenthesis or the end of the
text (the dollar anchor also matches just before a final newline).  Returns
the number of consumed characters, or none when a mid-text newline blocks
the match. -/
def dtLazy : List Char → Option Nat
  | [] => some 0
  | c :: cs =>
    if c = '(' then some 0
    else if c = '\n' then (if cs = [] then some 0 else none)
    else
      match dtLazy cs with
      | some k => some (k + 1)
      | none => none

/-- The date-time matcher at one position: the captured group consists of
the mandatory part followed by the lazy tail (source line 153). -/
def matchDatetimeAt (l : List Char) : Option (List Char) :=
  match matchDatetimeTail l with
  | none => none
  | some rest =>
    match dtLazy rest with
    | none => none
    | some k => some (l.take (l.length - rest.length + k))

/-- The contribution-id matcher at one position: the literal label, then
greedy whitespace, then a nonempty digit run (source line 132). -/
def matchIdAt (l : List Char) : Option (List Char) :=
  if isPre (String.data "Contribution ID:") l then
    let rest := (l.drop 16).dropWhile isSpaceC
    let ds := rest.takeWhile isDigitC
    if ds.isEmpty then none else some ds
  else none

/-- The contribution-code matcher at one position: the literal label, then
greedy whitespace, then a nonempty uppercase run followed by a nonempty
digit run (source line 137). -/
def matchCodeAt (l : List Char) : Option (List Char) :=
  if isPre (String.data "Contribution code:") l then
    let rest := (l.drop 18).dropWhile isSpaceC
    let us := rest.takeWhile isUpperC
    let ds := (rest.drop us.length).takeWhile isDigitC
    if us.isEmpty || ds.isEmpty then none else some (us ++ ds)
  else none

/-- Backtracking over the greedy whitespace of the type pattern: starting
from the maximal whitespace run, find the longest prefix of it after which
a non-newline character begins the captured rest-of-line group. -/
def tryTypeBody (rest : List Char) : Nat → Option (List Char)
  | 0 =>
    match rest with
    | [] => none
    | c :: cs => if c = '\n' then none else some ((c :: cs).takeWhile (fun x => x != '\n'))
  | r + 1 =>
    match rest.drop (r + 1) with
    | [] => tryTypeBody rest r
    | c :: cs =>
      if c = '\n' then tryTypeBody rest r
      else some ((c :: cs).takeWhile (fun x => x != '\n'))

/-- The type matcher at one position: the literal label, greedy whitespace
with backtracking, then a nonempty run of non-newline characters (source
line 148). -/
def matchTypeAt (l : List Char) : Option (List Char) :=
  if isPre (String.data "Type:") l then
    let rest := l.drop 5
    tryTypeBody rest (rest.takeWhile isSpaceC).length
  else none

/-- The lazy dot-all tail of the footnotes pattern: consume as few
characters as possible, newlines included, until the Contribution
lookahead or the end of the text succeeds.  Returns the consumed span
(source line 193). -/
def lazyFootGroup : List Char → List Char
  | [] => []
  | c :: cs =>
    if isPre (String.data "Contribution") (c :: cs) then []
    else if c = '\n' ∧ cs = [] then []
    else c :: lazyFootGroup cs

/-- The footnotes matcher at one position: the literal marker followed by
the lazy dot-all group (source line 193). -/
def matchFootAt (l : List Char) : Option (List Char) :=
  if isPre (String.data "Footnotes") l then some (lazyFootGroup (l.drop 9)) else none

/-- The fixed session table of get_session_name (source lines 217-298). -/
def session_map : List (String × String) :=
  [("MOA", "Monday Opening and Awards"),
   ("MOB", "Monday Oral Session B"),
   ("MOC", "Monday Oral Session C"),
   ("MOD", "Monday Oral Session D"),
   ("MOE", "Monday Oral Session E"),
   ("MOF", "Monday Oral Session F"),
   ("MOG", "Monday Oral Session G"),
   ("MOH", "Monday Oral Session H"),
   ("MOI", "Monday Oral Session I"),
   ("MOJ", "Monday Oral Session J"),
   ("MOK", "Monday Oral Session K"),
   ("MOL", "Monday Oral Session L"),
   ("MOM", "Monday Oral Session M"),
   ("MON", "Monday Oral Session N"),
   ("MOO", "Monday Oral Session O"),
   ("MOP", "Monday Poster Session"),
   ("TUA", "Tuesday Oral Session A"),
   ("TUB", "Tuesday Oral Session B"),
   ("TUC", "Tuesday Oral Session C"),
   ("TUD", "Tuesday Oral Session D"),
   ("TUE", "Tuesday Oral Session E"),
   ("TUF", "Tuesday Oral Session F"),
   ("TUG", "Tuesday Oral Session G"),
   ("TUH", "Tuesday Oral Session H"),
   ("TUI", "Tuesday Oral Session I"),
   ("TUJ", "Tuesday Oral Session J"),
   ("TUK", "Tuesday Oral Session K"),
   ("TUL", "Tuesday Oral Session L"),
   ("TUM", "Tuesday Oral Session M"),
   ("TUN", "Tuesday Oral Session N"),
   ("TUO", "Tuesday Oral Session O"),
   ("TUP", "Tuesday Poster Session"),
   ("WEA", "Wednesday Oral Session A"),
   ("WEB", "Wednesday Oral Session B"),
   ("WEC", "Wednesday Oral Session C"),
   ("WED", "Wednesday Oral Session D"),
   ("WEE", "Wednesday Oral Session E"),
   ("WEF", "Wednesday Oral Session F"),
   ("WEG", "Wednesday Oral Session G"),
   ("WEH", "Wednesday Oral Session H"),
   ("WEI", "Wednesday Oral Session I"),
   ("WEJ", "Wednesday Oral Session J"),
   ("WEK", "Wednesday Oral Session K"),
   ("WEL", "Wednesday Oral Session L"),
   ("WEM", "Wednesday Oral Session M"),
   ("WEN", "Wednesday Oral Session N"),
   ("WEO", "Wednesday Oral Session O"),
   ("WEP", "Wednesday Poster Session"),
   ("THA", "Thursday Oral Session A"),
   ("THB", "Thursday Oral Session B"),
   ("THC", "Thursday Oral Session C"),
   ("THD", "Thursday Oral Session D"),
   ("THE", "Thursday Oral Session E"),
   ("THF", "Thursday Oral Session F"),
   ("THG", "Thursday Oral Session G"),
   ("THH", "Thursday Oral Session H"),
   ("THI", "Thursday Oral Session I"),
   ("THJ", "Thursday Oral Session J"),
   ("THK", "Thursday Oral Session K"),
   ("THL", "Thursday Oral Session L"),
   ("THM", "Thursday Oral Session M"),
   ("THN", "Thursday Oral Session N"),
   ("THO", "Thursday Oral Session O"),
   ("THP", "Thursday Poster Session"),
   ("FRA", "Friday Oral Session A"),
   ("FRB", "Friday Oral Session B"),
   ("FRC", "Friday Oral Session C"),
   ("FRD", "Friday Oral Session D"),
   ("FRE", "Friday Oral Session E"),
   ("FRF", "Friday Oral Session F"),
   ("FRG", "Friday Oral Session G"),
   ("FRH", "Friday Oral Session H"),
   ("FRI", "Friday Oral Session I"),
   ("FRJ", "Friday Oral Session J"),
   ("FRK", "Friday Oral Session K"),
   ("FRL", "Friday Oral Session L"),
   ("FRM", "Friday Oral Session M"),
   ("FRN", "Friday Oral Session N"),
   ("FRO", "Friday Oral Session O"),
   ("FRP", "Friday Poster Session")]

/-- The session classifier: table lookup with a verbatim fallback (source
lines 207-300). -/
def get_session_name (session_code : String) : String :=
  match session_map.find? (fun p => p.1 == session_code) with
  | some p => p.2
  | none => "Session " ++ session_code

/-- The header markers whose presence in a lowercased line makes the scan
skip the line (source line 165). -/
def skipMarkers : List (List Char) :=
  [String.data "contribution id:", String.data "contribution code:",
   String.data "type:", String.data "srf2025", String.data "report of contributions"]

/-- Whether a line contains one of the header markers after lowercasing
(source line 165). -/
def markerHit (line : List Char) : Bool :=
  skipMarkers.any (fun m => containsSub m (asciiLower line))

/-- Whether a lowercased line starts with footnotes or funding (source
line 180). -/
def startsFootFund (line : List Char) : Bool :=
  isPre (String.data "footnotes") (asciiLower line) ||
    isPre (String.data "funding") (asciiLower line)

/-- State of the title and abstract line scan of parse_contribution_page
(source lines 159-186): the current title, the two flags and the abstract
accumulator. -/
structure ScanState where
  title : List Char
  titleFound : Bool
  abstractStart : Bool
  abstractLines : List (List Char)
deriving Repr, DecidableEq

/-- The title and abstract line scan of parse_contribution_page, one step
per line, embedding the loop of source lines 163-186 including its break
statement and its branch ordering. -/
def scanLoop : ScanState → List (List Char) → ScanState
  | s, [] => s
  | s, line :: rest =>
    if markerHit line then scanLoop s rest
    else if hasWeekday line then scanLoop s rest
    else if !s.titleFound && decide (10 < line.length) && !(isPre (String.data "http") line) then
      scanLoop { s with title := line, titleFound := true } rest
    else if s.titleFound && !s.abstractStart then
      if startsFootFund line then s
      else if decide (20 < line.length) then
        scanLoop { s with abstractLines := s.abstractLines ++ [line], abstractStart := true } rest
      else if s.abstractStart && decide (5 < line.length) then
        scanLoop { s with abstractLines := s.abstractLines ++ [line] } rest
      else scanLoop s rest
    else scanLoop s rest

/-- The initial state of the line scan (source lines 159-161). -/
def initScan : ScanState :=
  { title := [], titleFound := false, abstractStart := false, abstractLines := [] }

/-- A contribution record as built by parse_contribution_page (source
lines 114-125). -/
structure Contribution where
  contribution_id : String
  contribution_code : String
  type : String
  title : String
  date_time : String
  abstract : String
  footnotes : String
  session : String
  session_code : String
  page_number : Nat
deriving Repr, DecidableEq

/-- The record populated by the body of parse_contribution_page before its
validity gate (source lines 114-195). -/
def parse_fields (text : String) (page_num : Nat) : Contribution :=
  let t := text.data
  let idStr : List Char := (searchFirst matchIdAt t).getD []
  let codeStr : List Char := (searchFirst matchCodeAt t).getD []
  let sessCode : List Char := if 3 ≤ codeStr.length then codeStr.take 3 else []
  let sessName : String :=
    if 3 ≤ codeStr.length then get_session_name (String.mk (codeStr.take 3)) else ""
  let typeStr : List Char := ((searchFirst matchTypeAt t).map pyStrip).getD []
  let dtStr : List Char := ((searchFirst matchDatetimeAt t).map pyStrip).getD []
  let footStr : List Char := ((searchFirst matchFootAt t).map pyStrip).getD []
  let st := scanLoop initScan (linesOf t)
  { contribution_id := String.mk idStr,
    contribution_code := String.mk codeStr,
    type := String.mk typeStr,
    title := String.mk st.title,
    date_time := String.mk dtStr,
    abstract := String.mk (joinSpace st.abstractLines),
    footnotes := String.mk footStr,
    session := sessName,
    session_code := String.mk sessCode,
    page_number := page_num }

/-- The page record parser: the populated record passes the validity gate
only when both the contribution code and the title are nonempty (source
lines 201-205). -/
def parse_contribution_page (text : String) (page_num : Nat) : Option Contribution :=
  let c := parse_fields text page_num
  if c.contribution_code ≠ "" ∧ c.title ≠ "" then some c else none

/-- One page of the extraction loop: an exception while extracting or
parsing the page is caught and yields no record; a page whose text strips
to nothing is skipped; otherwise the page is parsed (source lines 82-94).
Exceptions are embedded as the error case of Except. -/
def processPage (page_num : Nat) (page : Except Unit String) : Option Contribution :=
  match page with
  | Except.error _ => none
  | Except.ok text =>
    if pyStrip text.data ≠ [] then parse_contribution_page text page_num else none

/-- The page loop of extract_contributions: process consecutive pages,
numbering them from the given first page number, appending each produced
record in page order (source lines 81-94). -/
def extractLoop : Nat → List (Except Unit String) → List Contribution
  | _, [] => []
  | n, p :: ps =>
    match processPage n p with
    | some c => c :: extractLoop (n + 1) ps
    | none => extractLoop (n + 1) ps

/-- extract_contributions on a document given as its list of page texts:
the first page is skipped and the remaining pages are processed with page
numbers starting at 2 (source lines 81-94). -/
def extract_contributions (pages : List (Except Unit String)) : List Contribution :=
  extractLoop 2 (pages.drop 1)

/-- Description from the claims of a qualifying title line: no header
marker, no weekday date pattern, length over ten characters, not starting
with http.  Stated from the claim wording, to be compared with the scan of
the source. -/
def titleCandidateSpec (line : List Char) : Bool :=
  !(markerHit line) && !(hasWeekday line) && decide (10 < line.length) &&
    !(isPre (String.data "http") line)

/-- Description from the claims of the footnotes span: everything up to
but not including the next literal Contribution marker, or the whole rest
of the text when there is none.  Stated from the claim wording, to be
compared with the lazy dot-all group of the source. -/
def takeToContrib : List Char → List Char
  | [] => []
  | c :: cs =>
    if isPre (String.data "Contribution") (c :: cs) then [] else c :: takeToContrib cs

/-- Description from the claim of the scanned lines following the title:
the rest of the line list after the first qualifying title line, absent
when no line qualifies. -/
def afterTitleSpec : List (List Char) → Option (List (List Char))
  | [] => none
  | l :: ls => if titleCandidateSpec l then some ls else afterTitleSpec ls

/-- Description from the claim of the single collected abstract line: the
first post-title line that the scan accepts, namely the first line that has
no header marker and no weekday pattern, does not start the footnotes or
funding block (which ends collection), and is longer than twenty
characters. -/
def firstAbstractLine : List (List Char) → Option (List Char)
  | [] => none
  | l :: ls =>
    if markerHit l || hasWeekday l then firstAbstractLine ls
    else if startsFootFund l then none
    else if decide (20 < l.length) then some l
    else firstAbstractLine ls

/-- The worked example page of the specification, its lines joined with
newlines. -/
def c5pageText : String :=
  "Contribution ID: 42\nContribution code: TUB003\nType: Oral Presentation\nTuesday, June 10, 2025 09:30 AM\nSuperconducting Cavity Performance Improvements\nThis work presents a detailed study of cavity quality factor degradation under high field operation conditions.\nFootnotes\nSupported by Grant XYZ."

/-- A page whose body has two qualifying lines after the title. -/
def c2pageText : String :=
  "Contribution ID: 42\nContribution code: TUB003\nType: Oral Presentation\nSuperconducting Cavity Performance Improvements\nThis work presents a detailed study of cavity degradation.\nWe also measured surface resistance at multiple temperatures.\nFootnotes\nSupported by Grant XYZ."

/-! ### Helper lemmas -/

theorem drop_len_append (a b : List Char) : (a ++ b).drop a.length = b := by
  induction a with
  | nil => rfl
  | cons c cs ih =>
    simp only [List.cons_append, List.length_cons, List.drop_succ_cons]
    exact ih

theorem isPre_append_self (a b : List Char) : isPre a (a ++ b) = true := by
  induction a with
  | nil => rfl
  | cons c cs ih => simp [isPre, ih]

theorem searchFirst_drop (f : List Char → Option (List Char)) :
    ∀ (n : Nat) (l : List Char), (∀ k, k < n → f (l.drop k) = none) →
      searchFirst f l = searchFirst f (l.drop n) := by
  intro n
  induction n with
  | zero => intro l _; rfl
  | succ m ih =>
    intro l h
    cases l with
    | nil =>
      rw [List.drop_nil]
    | cons c cs =>
      have h0 := h 0 (Nat.succ_pos m)
      simp only [List.drop_zero] at h0
      have step : searchFirst f (c :: cs) = searchFirst f cs := by
        simp [searchFirst, h0]
      rw [step, List.drop_succ_cons]
      exact ih cs (fun k hk => by
        have hx := h (k + 1) (Nat.succ_lt_succ hk)
        simp only [List.drop_succ_cons] at hx
        exact hx)

theorem mk_eq_empty_iff (l : List Char) : String.mk l = "" ↔ l = [] := by
  constructor
  · intro h
    have := congrArg String.data h
    simpa using this
  · intro h; subst h; rfl

theorem parse_fields_code (text : String) (pn : Nat) :
    (parse_fields text pn).contribution_code =
      String.mk ((searchFirst matchCodeAt text.data).getD []) := rfl

theorem parse_fields_session_code (text : String) (pn : Nat) :
    (parse_fields text pn).session_code =
      String.mk
        (if 3 ≤ ((searchFirst matchCodeAt text.data).getD []).length then
          ((searchFirst matchCodeAt text.data).getD []).take 3
        else []) := rfl

theorem parse_fields_session (text : String) (pn : Nat) :
    (parse_fields text pn).session =
      (if 3 ≤ ((searchFirst matchCodeAt text.data).getD []).length then
        get_session_name (String.mk (((searchFirst matchCodeAt text.data).getD []).take 3))
      else "") := rfl

theorem parse_fields_title (text : String) (pn : Nat) :
    (parse_fields text pn).title =
      String.mk (scanLoop initScan (linesOf text.data)).title := rfl

theorem parse_fields_abstract (text : String) (pn : Nat) :
    (parse_fields text pn).abstract =
      String.mk (joinSpace (scanLoop initScan (linesOf text.data)).abstractLines) := rfl

theorem parse_fields_footnotes (text : String) (pn : Nat) :
    (parse_fields text pn).footnotes =
      String.mk (((searchFirst matchFootAt text.data).map pyStrip).getD []) := rfl

theorem parse_fields_date_time (text : String) (pn : Nat) :
    (parse_fields text pn).date_time =
      String.mk (((searchFirst matchDatetimeAt text.data).map pyStrip).getD []) := rfl

theorem parse_some_iff (text : String) (pn : Nat) (c : Contribution) :
    parse_contribution_page text pn = some c ↔
      c = parse_fields text pn ∧ (parse_fields text pn).contribution_code ≠ "" ∧
        (parse_fields text pn).title ≠ "" := by
  show (if (parse_fields text pn).contribution_code ≠ "" ∧ (parse_fields text pn).title ≠ ""
      then some (parse_fields text pn) else none) = some c ↔ _
  by_cases h : (parse_fields text pn).contribution_code ≠ "" ∧ (parse_fields text pn).title ≠ ""
  · rw [if_pos h]
    constructor
    · intro hc
      exact ⟨(Option.some.injEq _ _ ▸ hc).symm, h⟩
    · intro hc
      rw [hc.1]
  · rw [if_neg h]
    constructor
    · intro hc; cases hc
    · intro hc; exact absurd ⟨hc.2.1, hc.2.2⟩ h

theorem get_session_name_ne (s : String) : get_session_name s ≠ "" := by
  unfold get_session_name
  cases hfind : session_map.find? (fun p => p.1 == s) with
  | some p =>
    have hmem : p ∈ session_map := List.mem_of_find?_eq_some hfind
    have hall : ∀ q ∈ session_map, q.2 ≠ "" := by decide
    exact hall p hmem
  | none =>
    cases s with
    | mk d =>
      intro h
      have hd := congrArg String.data h
      rw [String.data_append] at hd
      have hS : String.data "Session " = 'S' :: String.data "ession " := rfl
      rw [hS] at hd
      exact List.cons_ne_nil _ _ hd

theorem scanLoop_title_stable (lines : List (List Char)) :
    ∀ s : ScanState, s.titleFound = true → (scanLoop s lines).title = s.title := by
  induction lines with
  | nil => intro s _; rfl
  | cons line rest ih =>
    intro s hs
    rw [scanLoop]
    split
    · exact ih s hs
    split
    · exact ih s hs
    split
    · next h => rw [hs] at h; simp at h
    split
    · split
      · rfl
      split
      · exact ih _ hs
      split
      · exact ih _ hs
      · exact ih s hs
    · exact ih s hs

theorem scanLoop_abs_stable (lines : List (List Char)) :
    ∀ s : ScanState, s.abstractStart = true → (scanLoop s lines).abstractLines = s.abstractLines := by
  induction lines with
  | nil => intro s _; rfl
  | cons line rest ih =>
    intro s hs
    rw [scanLoop]
    split
    · exact ih s hs
    split
    · exact ih s hs
    split
    · exact ih _ hs
    split
    · next h => rw [hs] at h; simp at h
    · exact ih s hs

theorem scanLoop_title_find (lines : List (List Char)) :
    ∀ s : ScanState, s.titleFound = false →
      (scanLoop s lines).title = ((lines.find? titleCandidateSpec).getD s.title) := by
  induction lines with
  | nil => intro s _; rfl
  | cons line rest ih =>
    intro s hs
    rw [scanLoop]
    by_cases h1 : markerHit line
    · have hc : titleCandidateSpec line = false := by simp [titleCandidateSpec, h1]
      rw [if_pos h1, List.find?_cons_of_neg _ (by simp [hc]), ih s hs]
    · rw [if_neg h1]
      by_cases h2 : hasWeekday line
      · have hc : titleCandidateSpec line = false := by simp [titleCandidateSpec, h2]
        rw [if_pos h2, List.find?_cons_of_neg _ (by simp [hc]), ih s hs]
      · rw [if_neg h2]
        by_cases h3 : (decide (10 < line.length) && !(isPre (String.data "http") line)) = true
        · have hcond : (!s.titleFound && decide (10 < line.length) &&
              !(isPre (String.data "http") line)) = true := by
            rw [hs]
            simp only [Bool.not_false, Bool.true_and]
            exact h3
          rw [if_pos hcond]
          have hc : titleCandidateSpec line = true := by
            simp only [titleCandidateSpec, Bool.and_eq_true] at h3 ⊢
            exact ⟨⟨⟨by simp [h1], by simp [h2]⟩, h3.1⟩, h3.2⟩
          rw [List.find?_cons_of_pos _ hc]
          exact scanLoop_title_stable rest _ rfl
        · have hcond : (!s.titleFound && decide (10 < line.length) &&
              !(isPre (String.data "http") line)) = false := by
            rw [hs]
            simp only [Bool.not_false, Bool.true_and]
            exact Bool.not_eq_true _ ▸ (Bool.eq_false_iff.mpr h3)
          have hc : titleCandidateSpec line = false := by
            simp only [titleCandidateSpec]
            rcases Bool.and_eq_false_iff.mp hcond with h | h
            · rw [hs] at h
              simp only [Bool.not_false, Bool.true_and] at h
              simp [h]
            · simp [h]
          rw [if_neg (by simp [hcond]), List.find?_cons_of_neg _ (by simp [hc])]
          have hc4 : (s.titleFound && !s.abstractStart) = false := by rw [hs]; rfl
          rw [if_neg (by simp [hc4])]
          exact ih s hs

theorem scanLoop_abs_shape (lines : List (List Char)) :
    ∀ s : ScanState, s.abstractStart = false → s.abstractLines = [] →
      (scanLoop s lines).abstractLines = [] ∨
        ∃ l, l ∈ lines ∧ (scanLoop s lines).abstractLines = [l] ∧ 20 < l.length := by
  induction lines with
  | nil =>
    intro s _ hl
    left
    exact hl
  | cons line rest ih =>
    intro s hs hl
    have lift : (scanLoop s rest).abstractLines = [] ∨
        (∃ l, l ∈ rest ∧ (scanLoop s rest).abstractLines = [l] ∧ 20 < l.length) →
        (scanLoop s rest).abstractLines = [] ∨
        ∃ l, l ∈ line :: rest ∧ (scanLoop s rest).abstractLines = [l] ∧ 20 < l.length := by
      intro h
      rcases h with h | ⟨l, hm, he, hlen⟩
      · exact Or.inl h
      · exact Or.inr ⟨l, List.mem_cons_of_mem _ hm, he, hlen⟩
    rw [scanLoop]
    split
    · exact lift (ih s hs hl)
    split
    · exact lift (ih s hs hl)
    split
    · rcases ih { s with title := line, titleFound := true } hs hl with h | ⟨l, hm, he, hlen⟩
      · exact Or.inl h
      · exact Or.inr ⟨l, List.mem_cons_of_mem _ hm, he, hlen⟩
    split
    · split
      · left; exact hl
      split
      · next h20 =>
        right
        refine ⟨line, List.mem_cons_self _ _, ?_, of_decide_eq_true h20⟩
        have hstable := scanLoop_abs_stable rest
          { s with abstractLines := s.abstractLines ++ [line], abstractStart := true } rfl
        rw [hstable]
        simp [hl]
      split
      · next hdead =>
        rw [hs] at hdead
        simp at hdead
      · exact lift (ih s hs hl)
    · exact lift (ih s hs hl)

theorem scanLoop_abs_first (lines : List (List Char)) :
    ∀ s : ScanState, s.titleFound = true → s.abstractStart = false → s.abstractLines = [] →
      (scanLoop s lines).abstractLines = (firstAbstractLine lines).toList := by
  induction lines with
  | nil =>
    intro s _ _ hl
    exact hl
  | cons line rest ih =>
    intro s ht ha hl
    rw [scanLoop, firstAbstractLine]
    by_cases h1 : markerHit line
    · rw [if_pos h1,
        if_pos (show (markerHit line || hasWeekday line) = true by simp [h1])]
      exact ih s ht ha hl
    · rw [if_neg h1]
      by_cases h2 : hasWeekday line
      · rw [if_pos h2,
          if_pos (show (markerHit line || hasWeekday line) = true by simp [h2])]
        exact ih s ht ha hl
      · rw [if_neg h2,
          if_neg (show ¬((markerHit line || hasWeekday line) = true) by simp [h1, h2])]
        have h3 : (!s.titleFound && decide (10 < line.length) &&
            !(isPre (String.data "http") line)) = false := by
          rw [ht]
          rfl
        rw [if_neg (show ¬((!s.titleFound && decide (10 < line.length) &&
            !(isPre (String.data "http") line)) = true) by simp [h3])]
        have h4 : (s.titleFound && !s.abstractStart) = true := by rw [ht, ha]; rfl
        rw [if_pos (show (s.titleFound && !s.abstractStart) = true from h4)]
        by_cases h5 : startsFootFund line
        · rw [if_pos h5, if_pos h5, hl]
          rfl
        · rw [if_neg h5, if_neg h5]
          by_cases h6 : decide (20 < line.length) = true
          · rw [if_pos h6, if_pos h6, scanLoop_abs_stable rest _ rfl]
            show s.abstractLines ++ [line] = (some line).toList
            rw [hl]
            rfl
          · rw [if_neg h6, if_neg h6]
            have h7 : (s.abstractStart && decide (5 < line.length)) = false := by
              rw [ha]
              rfl
            rw [if_neg (show ¬((s.abstractStart && decide (5 < line.length)) = true) by
              simp [h7])]
            exact ih s ht ha hl

theorem scanLoop_abs_spec (lines : List (List Char)) :
    ∀ s : ScanState, s.titleFound = false → s.abstractStart = false → s.abstractLines = [] →
      (scanLoop s lines).abstractLines =
        ((afterTitleSpec lines).bind firstAbstractLine).toList := by
  induction lines with
  | nil =>
    intro s _ _ hl
    exact hl
  | cons line rest ih =>
    intro s ht ha hl
    rw [scanLoop, afterTitleSpec]
    by_cases h1 : markerHit line
    · have hc : titleCandidateSpec line = false := by simp [titleCandidateSpec, h1]
      rw [if_pos h1, if_neg (show ¬(titleCandidateSpec line = true) by simp [hc])]
      exact ih s ht ha hl
    · rw [if_neg h1]
      by_cases h2 : hasWeekday line
      · have hc : titleCandidateSpec line = false := by simp [titleCandidateSpec, h2]
        rw [if_pos h2, if_neg (show ¬(titleCandidateSpec line = true) by simp [hc])]
        exact ih s ht ha hl
      · rw [if_neg h2]
        by_cases h3 : (decide (10 < line.length) && !(isPre (String.data "http") line)) = true
        · have hcond : (!s.titleFound && decide (10 < line.length) &&
              !(isPre (String.data "http") line)) = true := by
            rw [ht]
            simp only [Bool.not_false, Bool.true_and]
            exact h3
          rw [if_pos (show (!s.titleFound && decide (10 < line.length) &&
            !(isPre (String.data "http") line)) = true from hcond)]
          have hc : titleCandidateSpec line = true := by
            simp only [Bool.and_eq_true] at h3
            simp only [titleCandidateSpec, Bool.and_eq_true]
            exact ⟨⟨⟨by simp [h1], by simp [h2]⟩, h3.1⟩, h3.2⟩
          rw [if_pos (show titleCandidateSpec line = true from hc)]
          exact scanLoop_abs_first rest _ rfl ha hl
        · have hcond : (!s.titleFound && decide (10 < line.length) &&
              !(isPre (String.data "http") line)) = false := by
            rw [ht]
            simp only [Bool.not_false, Bool.true_and]
            exact Bool.eq_false_iff.mpr h3
          rw [if_neg (show ¬((!s.titleFound && decide (10 < line.length) &&
            !(isPre (String.data "http") line)) = true) by simp [hcond])]
          have hc : titleCandidateSpec line = false := by
            simp only [titleCandidateSpec]
            rcases Bool.and_eq_false_iff.mp hcond with h | h
            · rw [ht] at h
              simp only [Bool.not_false, Bool.true_and] at h
              simp [h]
            · simp [h]
          rw [if_neg (show ¬(titleCandidateSpec line = true) by simp [hc])]
          have hc4 : (s.titleFound && !s.abstractStart) = false := by rw [ht]; rfl
          rw [if_neg (show ¬((s.titleFound && !s.abstractStart) = true) by simp [hc4])]
          exact ih s ht ha hl

theorem searchFirst_eq_some (f : List Char → Option (List Char)) (l r : List Char)
    (h : f l = some r) : searchFirst f l = some r := by
  cases l with
  | nil => rw [searchFirst]; exact h
  | cons c cs => rw [searchFirst, h]

theorem matchFootAt_append (post : List Char) :
    matchFootAt (String.data "Footnotes" ++ post) = some (lazyFootGroup post) := by
  unfold matchFootAt
  rw [if_pos (isPre_append_self _ _)]
  congr 1

theorem rstrip_lazyFoot (post : List Char) :
    rstrip (lazyFootGroup post) = rstrip (takeToContrib post) := by
  induction post with
  | nil => rfl
  | cons c cs ih =>
    rw [lazyFootGroup, takeToContrib]
    by_cases h1 : isPre (String.data "Contribution") (c :: cs) = true
    · rw [if_pos h1, if_pos h1]
    · rw [if_neg h1, if_neg h1]
      by_cases h2 : c = '\n' ∧ cs = []
      · rw [if_pos h2]
        obtain ⟨hc, hcs⟩ := h2
        subst hc
        subst hcs
        rfl
      · rw [if_neg h2]
        rw [rstrip, rstrip, ih]

theorem pyStrip_lazyFoot (post : List Char) :
    pyStrip (lazyFootGroup post) = pyStrip (takeToContrib post) := by
  unfold pyStrip
  rw [rstrip_lazyFoot]

/-! ### Claim theorems -/

/-- C1: for every page text and page number, parse returns a record exactly
when both the extracted contribution code and the extracted title are
nonempty; otherwise it returns absent (no record) rather than an error, and
in particular a page text containing the code label AB123 but no line
qualifying as a title parses to absent. -/
theorem claim1_validity_gate :
    (∀ (text : String) (pn : Nat),
      ((parse_contribution_page text pn).isSome = true ↔
        (parse_fields text pn).contribution_code ≠ "" ∧ (parse_fields text pn).title ≠ "")) ∧
    (∀ (text : String) (pn : Nat),
      containsSub (String.data "Contribution code: AB123") text.data = true →
      (linesOf text.data).find? titleCandidateSpec = none →
      parse_contribution_page text pn = none) := by
  constructor
  · intro text pn
    show (if (parse_fields text pn).contribution_code ≠ "" ∧ (parse_fields text pn).title ≠ ""
        then some (parse_fields text pn) else none).isSome = true ↔ _
    by_cases h : (parse_fields text pn).contribution_code ≠ "" ∧ (parse_fields text pn).title ≠ ""
    · rw [if_pos h]
      simp [h]
    · rw [if_neg h]
      simp [h]
  · intro text pn _ hfind
    have htitle : (parse_fields text pn).title = "" := by
      rw [parse_fields_title, scanLoop_title_find _ _ rfl, hfind]
      rfl
    have hgate : ¬((parse_fields text pn).contribution_code ≠ "" ∧
        (parse_fields text pn).title ≠ "") := fun hco => hco.2 htitle
    show (if (parse_fields text pn).contribution_code ≠ "" ∧ (parse_fields text pn).title ≠ ""
        then some (parse_fields text pn) else none) = none
    rw [if_neg hgate]

/-- Witness for C1: a concrete page with the AB123 code and no qualifying
title line yields no record. -/
theorem claim1_validity_gate_witness :
    parse_contribution_page "Contribution code: AB123\nshort" 3 = none :=
  claim1_validity_gate.2 "Contribution code: AB123\nshort" 3 (by decide) (by decide)

/-- C3: the title produced by the scan is exactly the first stripped
nonempty line that has no header marker, does not match the weekday date
pattern, is longer than ten characters and does not start with http; lines
of ten or fewer characters or starting with http are passed over and
scanning continues. -/
theorem claim3_title_first_qualifying (text : String) (pn : Nat) :
    (parse_fields text pn).title =
      String.mk (((linesOf text.data).find? titleCandidateSpec).getD []) := by
  rw [parse_fields_title, scanLoop_title_find _ _ rfl]
  rfl

/-- C9: the abstract accumulator of the scan holds at most one line: it is
exactly the option-valued first accepted post-title line, and in every
record returned by parse the abstract is either the empty string or
exactly one single line of the page, longer than twenty characters, so no
joining of several lines ever occurs in the output. -/
theorem claim9_abstract_single_line :
    (∀ t : List Char,
      (scanLoop initScan (linesOf t)).abstractLines =
        ((afterTitleSpec (linesOf t)).bind firstAbstractLine).toList) ∧
    (∀ (text : String) (pn : Nat) (c : Contribution),
      parse_contribution_page text pn = some c →
      ((scanLoop initScan (linesOf text.data)).abstractLines = [] ∧ c.abstract = "") ∨
        ∃ l, l ∈ linesOf text.data ∧
          (scanLoop initScan (linesOf text.data)).abstractLines = [l] ∧
          c.abstract = String.mk l ∧ 20 < l.length) := by
  constructor
  · intro t
    exact scanLoop_abs_spec (linesOf t) initScan rfl rfl rfl
  · intro text pn c h
    have hc : c = parse_fields text pn := ((parse_some_iff text pn c).mp h).1
    subst hc
    rcases scanLoop_abs_shape (linesOf text.data) initScan rfl rfl with hempty | ⟨l, hm, he, hlen⟩
    · left
      refine ⟨hempty, ?_⟩
      rw [parse_fields_abstract, hempty]
      rfl
    · right
      refine ⟨l, hm, he, ?_, hlen⟩
      rw [parse_fields_abstract, he]
      rfl

/-- Witness for C9 at a concrete page with one qualifying abstract line. -/
theorem claim9_abstract_single_line_witness :
    ((scanLoop initScan (linesOf (String.data "Contribution code: TUB003\nA good long title line here\nAn abstract line that is long enough to count"))).abstractLines = [] ∧
      (parse_fields "Contribution code: TUB003\nA good long title line here\nAn abstract line that is long enough to count" 4).abstract = "") ∨
    ∃ l, l ∈ linesOf (String.data "Contribution code: TUB003\nA good long title line here\nAn abstract line that is long enough to count") ∧
      (scanLoop initScan (linesOf (String.data "Contribution code: TUB003\nA good long title line here\nAn abstract line that is long enough to count"))).abstractLines = [l] ∧
      (parse_fields "Contribution code: TUB003\nA good long title line here\nAn abstract line that is long enough to count" 4).abstract = String.mk l ∧ 20 < l.length :=
  claim9_abstract_single_line.2
    "Contribution code: TUB003\nA good long title line here\nAn abstract line that is long enough to count" 4
    (parse_fields "Contribution code: TUB003\nA good long title line here\nAn abstract line that is long enough to count" 4)
    (by decide)

/-- C10: in every returned record the session code is empty exactly when
the matched contribution code has fewer than three characters, a nonempty
session code is the first three characters of the contribution code with
the session resolved through the classifier, and the session is nonempty
exactly when the session code is nonempty. -/
theorem claim10_session_fields (text : String) (pn : Nat) (c : Contribution)
    (h : parse_contribution_page text pn = some c) :
    (c.session_code = "" ↔ c.contribution_code.length < 3) ∧
    (c.session_code ≠ "" →
      c.session_code = String.mk (c.contribution_code.data.take 3) ∧
      c.session = get_session_name c.session_code) ∧
    (c.session ≠ "" ↔ c.session_code ≠ "") := by
  have hc : c = parse_fields text pn := ((parse_some_iff text pn c).mp h).1
  subst hc
  rw [parse_fields_session_code, parse_fields_session, parse_fields_code]
  by_cases h3 : 3 ≤ ((searchFirst matchCodeAt text.data).getD []).length
  · rw [if_pos h3, if_pos h3]
    have hlen3 : (((searchFirst matchCodeAt text.data).getD []).take 3).length = 3 := by
      rw [List.length_take]
      omega
    have hne : String.mk (((searchFirst matchCodeAt text.data).getD []).take 3) ≠ "" := by
      rw [Ne, mk_eq_empty_iff]
      intro hnil
      rw [hnil] at hlen3
      simp at hlen3
    refine ⟨⟨fun he => absurd he hne, fun hlt => ?_⟩, fun _ => ⟨rfl, rfl⟩,
      ⟨fun _ => hne, fun _ => get_session_name_ne _⟩⟩
    rw [String.length_mk] at hlt
    omega
  · rw [if_neg h3, if_neg h3]
    refine ⟨⟨fun _ => ?_, fun _ => rfl⟩, fun hne => absurd rfl hne,
      ⟨fun hne => absurd rfl hne, fun hne => absurd rfl hne⟩⟩
    rw [String.length_mk]
    omega

/-- Witness for C10 at a concrete page with a three-letter code. -/
theorem claim10_session_fields_witness :
    ((parse_fields "Contribution code: WEP012\nAnother good long title line" 2).session_code = "" ↔
      (parse_fields "Contribution code: WEP012\nAnother good long title line" 2).contribution_code.length < 3) ∧
    ((parse_fields "Contribution code: WEP012\nAnother good long title line" 2).session_code ≠ "" →
      (parse_fields "Contribution code: WEP012\nAnother good long title line" 2).session_code =
        String.mk ((parse_fields "Contribution code: WEP012\nAnother good long title line" 2).contribution_code.data.take 3) ∧
      (parse_fields "Contribution code: WEP012\nAnother good long title line" 2).session =
        get_session_name (parse_fields "Contribution code: WEP012\nAnother good long title line" 2).session_code) ∧
    ((parse_fields "Contribution code: WEP012\nAnother good long title line" 2).session ≠ "" ↔
      (parse_fields "Contribution code: WEP012\nAnother good long title line" 2).session_code ≠ "") :=
  claim10_session_fields "Contribution code: WEP012\nAnother good long title line" 2
    (parse_fields "Contribution code: WEP012\nAnother good long title line" 2) (by decide)

/-- C4 counterexample: a page text that contains the label with code
MOA007 yet whose parsed record has session code TUB, because the leftmost
match of the code pattern is the earlier TUB003 label; so the claim as
stated, quantified over any page text containing the MOA007 label, is
false. -/
theorem claim4_session_classifier_counterexample :
    containsSub (String.data "Contribution code: MOA007")
        (String.data "Contribution code: TUB003\nContribution code: MOA007\nThis is a long title line") = true ∧
    (parse_contribution_page "Contribution code: TUB003\nContribution code: MOA007\nThis is a long title line" 1).map
        (fun c => c.session_code) = some "TUB" := by
  exact ⟨by decide, by decide⟩

/-- C4 (amended): the session classifier is total and always returns a
nonempty string, returns the tabulated display name for every code in the
fixed table (in particular MOA maps to Monday Opening and Awards) and the
fallback Session followed by the code verbatim for every absent code (in
particular ZZZ); and whenever the first match of the contribution-code
pattern in the page text is MOA007, the parsed fields have session code
MOA and session Monday Opening and Awards. -/
theorem claim4_session_classifier :
    (∀ s : String, get_session_name s ≠ "") ∧
    (∀ p ∈ session_map, get_session_name p.1 = p.2) ∧
    (∀ s : String, session_map.find? (fun q => q.1 == s) = none →
      get_session_name s = "Session " ++ s) ∧
    get_session_name "MOA" = "Monday Opening and Awards" ∧
    get_session_name "ZZZ" = "Session ZZZ" ∧
    (∀ (text : String) (pn : Nat),
      searchFirst matchCodeAt text.data = some (String.data "MOA007") →
      (parse_fields text pn).session_code = "MOA" ∧
      (parse_fields text pn).session = "Monday Opening and Awards") := by
  refine ⟨get_session_name_ne, by decide, ?_, by decide, by decide, ?_⟩
  · intro s hf
    unfold get_session_name
    rw [hf]
  · intro text pn h
    rw [parse_fields_session_code, parse_fields_session, h]
    exact ⟨by decide, by decide⟩

/-- Witness for C4 at concrete inputs: a tabulated code, an absent code,
and a page whose first code match is MOA007. -/
theorem claim4_session_classifier_witness :
    get_session_name "TUB" = "Tuesday Oral Session B" ∧
    get_session_name "QQQ" = "Session QQQ" ∧
    ((parse_fields "Contribution code: MOA007\nLong enough title line" 1).session_code = "MOA" ∧
      (parse_fields "Contribution code: MOA007\nLong enough title line" 1).session =
        "Monday Opening and Awards") :=
  ⟨claim4_session_classifier.2.1 ("TUB", "Tuesday Oral Session B") (by decide),
   claim4_session_classifier.2.2.1 "QQQ" (by decide),
   claim4_session_classifier.2.2.2.2.2 "Contribution code: MOA007\nLong enough title line" 1
     (by decide)⟩

/-- C5: parsing the worked example page with page number five returns a
record with the specified id, code, session code, session, type, title and
page number, whose abstract contains the cavity-degradation sentence and
whose footnotes contain the grant acknowledgment. -/
theorem claim5_example_page :
    (parse_contribution_page c5pageText 5).map (fun c => c.contribution_id) = some "42" ∧
    (parse_contribution_page c5pageText 5).map (fun c => c.contribution_code) = some "TUB003" ∧
    (parse_contribution_page c5pageText 5).map (fun c => c.session_code) = some "TUB" ∧
    (parse_contribution_page c5pageText 5).map (fun c => c.session) =
      some "Tuesday Oral Session B" ∧
    (parse_contribution_page c5pageText 5).map (fun c => c.type) = some "Oral Presentation" ∧
    (parse_contribution_page c5pageText 5).map (fun c => c.title) =
      some "Superconducting Cavity Performance Improvements" ∧
    (parse_contribution_page c5pageText 5).map (fun c => c.page_number) = some 5 ∧
    (parse_contribution_page c5pageText 5).map
        (fun c => containsSub (String.data "This work presents a detailed study of cavity quality factor degradation under high field operation conditions.") c.abstract.data) =
      some true ∧
    (parse_contribution_page c5pageText 5).map
        (fun c => containsSub (String.data "Supported by Grant XYZ.") c.footnotes.data) =
      some true := by
  refine ⟨by decide, by decide, by decide, by decide, by decide, by decide, by decide,
    by decide, by decide⟩

/-- C6: the date-time field is the stripped first whole-text match of the
date pattern, so only the first match is kept however many date-like lines
the page has; a following opening parenthesis truncates the match, and
with no parenthesis terminator the match extends to the end of the
text. -/
theorem claim6_datetime_first_match :
    (∀ (text : String) (pn : Nat),
      (parse_fields text pn).date_time =
        String.mk (((searchFirst matchDatetimeAt text.data).map pyStrip).getD [])) ∧
    (parse_fields "Header\nTuesday, June 10, 2025 09:30 AM in Hall (Main)\nmore text" 1).date_time =
      "Tuesday, June 10, 2025 09:30 AM in Hall" ∧
    (parse_fields "Header line\nTuesday, June 10, 2025 09:30 AM Hall B" 1).date_time =
      "Tuesday, June 10, 2025 09:30 AM Hall B" ∧
    (parse_fields "Tuesday, June 10, 2025 09:30 AM (A)\nWednesday, June 11, 2025 10:00 AM (B)" 1).date_time =
      "Tuesday, June 10, 2025 09:30 AM" := by
  exact ⟨parse_fields_date_time, by decide, by decide, by decide⟩

/-- C2 (code bug): on a page whose body has two lines longer than twenty
characters after the title, the code keeps only the first line in the
abstract; the second is never appended, because the appending block is
guarded by the negation of the very flag the first append sets, so the
claimed continued accumulation of later lines never happens. -/
theorem claim2_abstract_accumulation :
    (parse_contribution_page c2pageText 1).map (fun c => c.abstract) =
      some "This work presents a detailed study of cavity degradation." ∧
    (parse_contribution_page c2pageText 1).map
        (fun c => containsSub (String.data "We also measured") c.abstract.data) = some false := by
  exact ⟨by decide, by decide⟩

/-- C7: when the page text is any prefix with no Footnotes marker followed
by the first literal Footnotes marker and an arbitrary rest, the footnotes
field is exactly that rest up to but not including the next literal
Contribution marker (or the whole rest when there is none), stripped of
surrounding whitespace, newlines allowed inside the span; the extraction
reads the whole text and is independent of where the line scan stopped. -/
theorem claim7_footnotes_span (pre post : List Char) (pn : Nat)
    (h : ∀ k, k < pre.length →
      isPre (String.data "Footnotes") ((pre ++ String.data "Footnotes" ++ post).drop k) = false) :
    (parse_fields (String.mk (pre ++ String.data "Footnotes" ++ post)) pn).footnotes =
      String.mk (pyStrip (takeToContrib post)) := by
  rw [parse_fields_footnotes]
  have hdata : (String.mk (pre ++ String.data "Footnotes" ++ post)).data =
      pre ++ String.data "Footnotes" ++ post := rfl
  rw [hdata]
  have hskip : searchFirst matchFootAt (pre ++ String.data "Footnotes" ++ post) =
      searchFirst matchFootAt ((pre ++ String.data "Footnotes" ++ post).drop pre.length) :=
    searchFirst_drop matchFootAt pre.length _ (fun k hk => by
      unfold matchFootAt
      rw [h k hk]
      rfl)
  have hdrop : (pre ++ String.data "Footnotes" ++ post).drop pre.length =
      String.data "Footnotes" ++ post := by
    rw [List.append_assoc, drop_len_append]
  rw [hskip, hdrop,
    searchFirst_eq_some matchFootAt _ _ (matchFootAt_append post)]
  show String.mk (pyStrip (lazyFootGroup post)) = _
  rw [pyStrip_lazyFoot]

/-- Witness for C7 at a concrete page split around its Footnotes marker. -/
theorem claim7_footnotes_span_witness :
    (parse_fields (String.mk (String.data "Abstract body line\n" ++ String.data "Footnotes" ++
        String.data "\nThanks to the whole team.\nContribution ID: 9")) 4).footnotes =
      String.mk (pyStrip (takeToContrib
        (String.data "\nThanks to the whole team.\nContribution ID: 9"))) :=
  claim7_footnotes_span (String.data "Abstract body line\n")
    (String.data "\nThanks to the whole team.\nContribution ID: 9") 4 (by decide)

/-- C8: a page whose processing raises an exception yields no record, and
the extraction loop over a page list containing one raising page produces
exactly the records of the pages before it followed by the records of the
pages after it, with their page numbering unchanged: a per-page failure
never aborts the run and never changes the records produced from other
pages. -/
theorem claim8_page_failure_contained :
    (∀ n : Nat, processPage n (Except.error ()) = none) ∧
    (∀ (s : Nat) (pre post : List (Except Unit String)),
      extractLoop s (pre ++ Except.error () :: post) =
        extractLoop s pre ++ extractLoop (s + pre.length + 1) post) := by
  constructor
  · intro n; rfl
  · intro s pre
    induction pre generalizing s with
    | nil =>
      intro post
      show extractLoop s (Except.error () :: post) = [] ++ extractLoop (s + 0 + 1) post
      rw [List.nil_append]
      rfl
    | cons p ps ih =>
      intro post
      have harith : s + 1 + ps.length + 1 = s + (ps.length + 1) + 1 := by omega
      cases hp : processPage s p with
      | some c =>
        simp only [List.cons_append, extractLoop, hp, List.length_cons, List.append_eq]
        rw [ih (s + 1), harith]
      | none =>
        simp only [List.cons_append, extractLoop, hp, List.length_cons, List.append_eq]
        rw [ih (s + 1), harith]
